import Mathlib

/-!
Shallow embedding of the pan/orbit camera controller in `src/camera.rs`
(systems `accumulate_mouse_events_system` and `update_camera_system`),
together with the pieces of `glam`/`bevy_math` the code calls
(`Vec2`, `Vec3`, `Quat`, `Mat3::from_quat`, quaternion rotation of vectors).

`f32` arithmetic is modelled by exact rationals `ℚ`; the transcendental
pieces (`sin`, `cos`, the constant `PI`) only occur inside the axis-angle
quaternion constructors, so they are supplied by an abstract `Trig` oracle
that every theorem quantifies over.
-/

set_option autoImplicit false

namespace BevyDragging

/-- 2-component vector over ℚ, modelling `glam::Vec2`. -/
structure Vec2 where
  x : ℚ
  y : ℚ
deriving DecidableEq

/-- 3-component vector over ℚ, modelling `glam::Vec3`. -/
structure Vec3 where
  x : ℚ
  y : ℚ
  z : ℚ
deriving DecidableEq

/-- Quaternion over ℚ, modelling `glam::Quat` (x, y, z imaginary parts, w real part). -/
structure Quat where
  x : ℚ
  y : ℚ
  z : ℚ
  w : ℚ
deriving DecidableEq

instance : Add Vec2 := ⟨fun a b => ⟨a.x + b.x, a.y + b.y⟩⟩

instance : Sub Vec2 := ⟨fun a b => ⟨a.x - b.x, a.y - b.y⟩⟩

instance : Mul Vec2 := ⟨fun a b => ⟨a.x * b.x, a.y * b.y⟩⟩

instance : Div Vec2 := ⟨fun a b => ⟨a.x / b.x, a.y / b.y⟩⟩

instance : Neg Vec2 := ⟨fun a => ⟨-a.x, -a.y⟩⟩

instance : SMul ℚ Vec2 := ⟨fun c v => ⟨c * v.x, c * v.y⟩⟩

instance : Zero Vec2 := ⟨⟨0, 0⟩⟩

instance : Add Vec3 := ⟨fun a b => ⟨a.x + b.x, a.y + b.y, a.z + b.z⟩⟩

instance : Sub Vec3 := ⟨fun a b => ⟨a.x - b.x, a.y - b.y, a.z - b.z⟩⟩

instance : SMul ℚ Vec3 := ⟨fun c v => ⟨c * v.x, c * v.y, c * v.z⟩⟩

instance : Zero Vec3 := ⟨⟨0, 0, 0⟩⟩

@[simp] theorem Vec2.add_def (a b : Vec2) : a + b = ⟨a.x + b.x, a.y + b.y⟩ := rfl

@[simp] theorem Vec2.sub_def (a b : Vec2) : a - b = ⟨a.x - b.x, a.y - b.y⟩ := rfl

@[simp] theorem Vec2.mul_def (a b : Vec2) : a * b = ⟨a.x * b.x, a.y * b.y⟩ := rfl

@[simp] theorem Vec2.div_def (a b : Vec2) : a / b = ⟨a.x / b.x, a.y / b.y⟩ := rfl

@[simp] theorem Vec2.smul_def (c : ℚ) (v : Vec2) : c • v = ⟨c * v.x, c * v.y⟩ := rfl

@[simp] theorem Vec2.zero_def : (0 : Vec2) = ⟨0, 0⟩ := rfl

@[simp] theorem Vec2.x_zero : (0 : Vec2).x = 0 := rfl

@[simp] theorem Vec2.y_zero : (0 : Vec2).y = 0 := rfl

@[simp] theorem Vec3.add_eq3 (a b : Vec3) : a + b = ⟨a.x + b.x, a.y + b.y, a.z + b.z⟩ := rfl

@[simp] theorem Vec3.sub_eq3 (a b : Vec3) : a - b = ⟨a.x - b.x, a.y - b.y, a.z - b.z⟩ := rfl

@[simp] theorem Vec3.smul_eq3 (c : ℚ) (v : Vec3) : c • v = ⟨c * v.x, c * v.y, c * v.z⟩ := rfl

@[simp] theorem Vec3.zero_eq3 : (0 : Vec3) = ⟨0, 0, 0⟩ := rfl

/-- `Vec2::length_squared` (= `self.dot(self)` in glam). -/
def Vec2.length_squared (v : Vec2) : ℚ := v.x * v.x + v.y * v.y

/-- `Vec3::dot`. -/
def Vec3.dot (a b : Vec3) : ℚ := a.x * b.x + a.y * b.y + a.z * b.z

/-- `Vec3::cross`. -/
def Vec3.cross (a b : Vec3) : Vec3 :=
  ⟨a.y * b.z - a.z * b.y, a.z * b.x - a.x * b.z, a.x * b.y - a.y * b.x⟩

/-- `Vec3::X`. -/
def Vec3.X : Vec3 := ⟨1, 0, 0⟩

/-- `Vec3::Y`. -/
def Vec3.Y : Vec3 := ⟨0, 1, 0⟩

/-- Hamilton product, modelling glam `Quat::mul_quat`. -/
def Quat.mul (a b : Quat) : Quat :=
  ⟨a.w * b.x + a.x * b.w + a.y * b.z - a.z * b.y,
   a.w * b.y - a.x * b.z + a.y * b.w + a.z * b.x,
   a.w * b.z + a.x * b.y - a.y * b.x + a.z * b.w,
   a.w * b.w - a.x * b.x - a.y * b.y - a.z * b.z⟩

instance : Mul Quat := ⟨Quat.mul⟩

/-- Rotation of a vector by a (unit) quaternion, modelling glam's scalar
`Quat::mul_vec3`: `v*(w²−‖b‖²) + b*(v·b·2) + (b×v)*(w·2)` with `b` the imaginary part. -/
def Quat.mul_vec3 (q : Quat) (v : Vec3) : Vec3 :=
  let b : Vec3 := ⟨q.x, q.y, q.z⟩
  let b2 := b.dot b
  ((q.w * q.w - b2) • v) + ((v.dot b * 2) • b) + ((q.w * 2) • b.cross v)

/-- Abstract model of the `f32` transcendental functions used by the
axis-angle quaternion constructors, plus the constant `std::f32::consts::PI`.
All theorems are parametric in this oracle. -/
structure Trig where
  sin : ℚ → ℚ
  cos : ℚ → ℚ
  pi : ℚ

/-- glam `Quat::from_rotation_x(angle)` = `(sin(angle·0.5), 0, 0, cos(angle·0.5))`. -/
def Quat.from_rotation_x (tr : Trig) (angle : ℚ) : Quat :=
  ⟨tr.sin (angle * 0.5), 0, 0, tr.cos (angle * 0.5)⟩

/-- glam `Quat::from_rotation_y(angle)` = `(0, sin(angle·0.5), 0, cos(angle·0.5))`. -/
def Quat.from_rotation_y (tr : Trig) (angle : ℚ) : Quat :=
  ⟨0, tr.sin (angle * 0.5), 0, tr.cos (angle * 0.5)⟩

/-- 3×3 matrix by columns, modelling `glam::Mat3`. -/
structure Mat3 where
  x_axis : Vec3
  y_axis : Vec3
  z_axis : Vec3
deriving DecidableEq

/-- glam `Mat3::from_quat`. -/
def Mat3.from_quat (q : Quat) : Mat3 :=
  let x2 := q.x + q.x
  let y2 := q.y + q.y
  let z2 := q.z + q.z
  let xx := q.x * x2
  let xy := q.x * y2
  let xz := q.x * z2
  let yy := q.y * y2
  let yz := q.y * z2
  let zz := q.z * z2
  let wx := q.w * x2
  let wy := q.w * y2
  let wz := q.w * z2
  ⟨⟨1 - (yy + zz), xy + wz, xz - wy⟩,
   ⟨xy - wz, 1 - (xx + zz), yz + wx⟩,
   ⟨xz + wy, yz - wx, 1 - (xx + yy)⟩⟩

/-- glam `Mat3::mul_vec3`: `x_axis·v.x + y_axis·v.y + z_axis·v.z`. -/
def Mat3.mul_vec3 (m : Mat3) (v : Vec3) : Vec3 :=
  (v.x • m.x_axis) + (v.y • m.y_axis) + (v.z • m.z_axis)

/-- `bevy` `Transform`: the parts the camera code touches (scale is never read or written). -/
structure Transform where
  translation : Vec3
  rotation : Quat
deriving DecidableEq

/-- `bevy` `Projection`: the integrator only distinguishes `Perspective { fov, aspect_ratio, .. }`
from everything else. -/
inductive Projection where
  | perspective (fov : ℚ) (aspect_ratio : ℚ)
  | orthographic
deriving DecidableEq

/-- The `PanOrbitCamera` component of `src/camera.rs`. -/
structure PanOrbitCamera where
  focus : Vec3
  radius : ℚ
  upside_down : Bool
  pan : Vec2
  rotation_move : Vec2
  scroll : ℚ
  orbit_button_changed : Bool
deriving DecidableEq

/-- `impl Default for PanOrbitCamera`. -/
def PanOrbitCamera.default : PanOrbitCamera :=
  { focus := 0
    radius := 5.0
    upside_down := false
    pan := 0
    rotation_move := 0
    scroll := 0.0
    orbit_button_changed := false }

/-- Per-frame mouse button state, as queried from `ButtonInput<MouseButton>`:
`pressed`/`just_pressed`/`just_released` for the orbit (right) button and
`pressed` for the pan (middle) button. -/
structure MouseState where
  orbit_pressed : Bool
  pan_pressed : Bool
  orbit_just_pressed : Bool
  orbit_just_released : Bool
deriving DecidableEq

/-- `const LERP: f32 = 0.1`. -/
def LERP : ℚ := 0.1

/-- `accumulate_mouse_events_system`, specialised to one camera of the query.
`ev_motion` is the frame's list of `MouseMotion.delta`s, `ev_scroll` the list
of `MouseWheel.y`s. -/
def accumulate_mouse_events_system (ms : MouseState) (ev_motion : List Vec2)
    (ev_scroll : List ℚ) (camera : PanOrbitCamera) : PanOrbitCamera :=
  let rotation_move : Vec2 :=
    if ms.orbit_pressed then ev_motion.foldl (· + ·) 0 else 0
  let pan : Vec2 :=
    if ms.orbit_pressed then 0
    else if ms.pan_pressed then ev_motion.foldl (· + ·) 0 else 0
  let scroll : ℚ := ev_scroll.foldl (· + ·) 0.0
  let orbit_button_changed : Bool := ms.orbit_just_released || ms.orbit_just_pressed
  { camera with
    orbit_button_changed := camera.orbit_button_changed || orbit_button_changed
    pan := camera.pan + (2.0 : ℚ) • pan
    rotation_move := camera.rotation_move + (2.0 : ℚ) • rotation_move
    scroll := camera.scroll + 2.0 * scroll }

/-- The flag check at the top of `update_camera_system`: if
`orbit_button_changed`, recompute `upside_down` from `transform.rotation * Vec3::Y`
and clear the flag. -/
def orbit_flip_check (camera : PanOrbitCamera) (transform : Transform) : PanOrbitCamera :=
  if camera.orbit_button_changed then
    let up := transform.rotation.mul_vec3 Vec3.Y
    { camera with upside_down := decide (up.y ≤ 0.0), orbit_button_changed := false }
  else camera

/-- The rotation block of `update_camera_system` (the `rotation_move.length_squared() > 0.5`
branch). Returns the camera, the transform, and whether the branch ran. -/
def rotation_step (tr : Trig) (window : Vec2) (camera : PanOrbitCamera)
    (transform : Transform) : PanOrbitCamera × Transform × Bool :=
  if camera.rotation_move.length_squared > 0.5 then
    let rotation_move := LERP • camera.rotation_move
    let camera := { camera with rotation_move := camera.rotation_move - rotation_move }
    let delta_x :=
      let delta := rotation_move.x / window.x * tr.pi * 2.0
      if camera.upside_down then -delta else delta
    let delta_y := rotation_move.y / window.y * tr.pi
    let yaw := Quat.from_rotation_y tr (-delta_x)
    let pitch := Quat.from_rotation_x tr (-delta_y)
    let transform := { transform with rotation := (yaw * transform.rotation) * pitch }
    (camera, transform, true)
  else (camera, transform, false)

/-- The pan block of `update_camera_system` (the `pan.length_squared() > 0.5` branch).
The transform is only read, never written, by this block. -/
def pan_step (window : Vec2) (projection : Projection) (camera : PanOrbitCamera)
    (transform : Transform) : PanOrbitCamera × Bool :=
  if camera.pan.length_squared > 0.5 then
    let pan := LERP • camera.pan
    let camera := { camera with pan := camera.pan - pan }
    let pan :=
      match projection with
      | Projection.perspective fov aspect_ratio =>
          pan * (Vec2.mk (fov * aspect_ratio) fov / window)
      | Projection.orthographic => pan
    let right := (-pan.x) • transform.rotation.mul_vec3 Vec3.X
    let up := pan.y • transform.rotation.mul_vec3 Vec3.Y
    let translation := camera.radius • (right + up)
    ({ camera with focus := camera.focus + translation }, true)
  else (camera, false)

/-- The zoom block of `update_camera_system` (the `scroll.abs() > 0.5` branch),
including the `f32::max(radius, 0.05)` clamp. -/
def zoom_step (camera : PanOrbitCamera) : PanOrbitCamera × Bool :=
  if |camera.scroll| > 0.5 then
    let scroll := camera.scroll * LERP
    let camera := { camera with scroll := camera.scroll - scroll }
    let radius := camera.radius - scroll * camera.radius * 0.05
    ({ camera with radius := max radius 0.05 }, true)
  else (camera, false)

/-- `update_camera_system`, specialised to one camera of the query: flag check,
rotation block, pan block, zoom block, then transform synthesis if any block ran.
`window` is `get_primary_window_size` (surface width, height). -/
def update_camera_system (tr : Trig) (window : Vec2) (projection : Projection)
    (camera : PanOrbitCamera) (transform : Transform) : PanOrbitCamera × Transform :=
  let camera := orbit_flip_check camera transform
  let r := rotation_step tr window camera transform
  let camera := r.1
  let transform := r.2.1
  let p := pan_step window projection camera transform
  let camera := p.1
  let z := zoom_step camera
  let camera := z.1
  let any := r.2.2 || p.2 || z.2
  let transform :=
    if any then
      let rot_matrix := Mat3.from_quat transform.rotation
      { transform with
        translation := camera.focus + rot_matrix.mul_vec3 ⟨0.0, 0.0, camera.radius⟩ }
    else transform
  (camera, transform)

/-- One frame's worth of raw input. -/
structure FrameInput where
  mouse : MouseState
  motion : List Vec2
  wheel : List ℚ

/-- One frame: accumulator then integrator (the order the spec prescribes). -/
def step_frame (tr : Trig) (window : Vec2) (projection : Projection) (fi : FrameInput)
    (s : PanOrbitCamera × Transform) : PanOrbitCamera × Transform :=
  update_camera_system tr window projection
    (accumulate_mouse_events_system fi.mouse fi.motion fi.wheel s.1) s.2

/-- Many frames in sequence. -/
def run_frames (tr : Trig) (window : Vec2) (projection : Projection)
    (fis : List FrameInput) (s : PanOrbitCamera × Transform) : PanOrbitCamera × Transform :=
  fis.foldl (fun s fi => step_frame tr window projection fi s) s

/-- A concrete trig oracle for witnesses (its values are irrelevant to every theorem). -/
def trig0 : Trig := ⟨fun _ => 0, fun _ => 1, 3⟩

/-! ### Field characterizations of the individual blocks -/

theorem orbit_flip_check_radius (c : PanOrbitCamera) (t : Transform) :
    (orbit_flip_check c t).radius = c.radius := by
  unfold orbit_flip_check; split <;> rfl

theorem orbit_flip_check_focus (c : PanOrbitCamera) (t : Transform) :
    (orbit_flip_check c t).focus = c.focus := by
  unfold orbit_flip_check; split <;> rfl

theorem orbit_flip_check_pan (c : PanOrbitCamera) (t : Transform) :
    (orbit_flip_check c t).pan = c.pan := by
  unfold orbit_flip_check; split <;> rfl

theorem orbit_flip_check_rotation_move (c : PanOrbitCamera) (t : Transform) :
    (orbit_flip_check c t).rotation_move = c.rotation_move := by
  unfold orbit_flip_check; split <;> rfl

theorem orbit_flip_check_scroll (c : PanOrbitCamera) (t : Transform) :
    (orbit_flip_check c t).scroll = c.scroll := by
  unfold orbit_flip_check; split <;> rfl

theorem orbit_flip_check_flag (c : PanOrbitCamera) (t : Transform) :
    (orbit_flip_check c t).orbit_button_changed = false := by
  unfold orbit_flip_check; split <;> simp_all

theorem orbit_flip_check_upside_down (c : PanOrbitCamera) (t : Transform) :
    (orbit_flip_check c t).upside_down =
      if c.orbit_button_changed then decide ((t.rotation.mul_vec3 Vec3.Y).y ≤ 0.0)
      else c.upside_down := by
  unfold orbit_flip_check; split <;> simp_all

theorem orbit_flip_check_id (c : PanOrbitCamera) (t : Transform)
    (h : c.orbit_button_changed = false) : orbit_flip_check c t = c := by
  unfold orbit_flip_check; simp [h]

theorem rotation_step_radius (tr : Trig) (w : Vec2) (c : PanOrbitCamera) (t : Transform) :
    (rotation_step tr w c t).1.radius = c.radius := by
  unfold rotation_step; split <;> rfl

theorem rotation_step_focus (tr : Trig) (w : Vec2) (c : PanOrbitCamera) (t : Transform) :
    (rotation_step tr w c t).1.focus = c.focus := by
  unfold rotation_step; split <;> rfl

theorem rotation_step_pan (tr : Trig) (w : Vec2) (c : PanOrbitCamera) (t : Transform) :
    (rotation_step tr w c t).1.pan = c.pan := by
  unfold rotation_step; split <;> rfl

theorem rotation_step_scroll (tr : Trig) (w : Vec2) (c : PanOrbitCamera) (t : Transform) :
    (rotation_step tr w c t).1.scroll = c.scroll := by
  unfold rotation_step; split <;> rfl

theorem rotation_step_upside_down (tr : Trig) (w : Vec2) (c : PanOrbitCamera) (t : Transform) :
    (rotation_step tr w c t).1.upside_down = c.upside_down := by
  unfold rotation_step; split <;> rfl

theorem rotation_step_flag (tr : Trig) (w : Vec2) (c : PanOrbitCamera) (t : Transform) :
    (rotation_step tr w c t).1.orbit_button_changed = c.orbit_button_changed := by
  unfold rotation_step; split <;> rfl

theorem rotation_step_rotation_move (tr : Trig) (w : Vec2) (c : PanOrbitCamera) (t : Transform) :
    (rotation_step tr w c t).1.rotation_move =
      if c.rotation_move.length_squared > 0.5 then c.rotation_move - LERP • c.rotation_move
      else c.rotation_move := by
  unfold rotation_step; split <;> simp [*]

theorem rotation_step_translation (tr : Trig) (w : Vec2) (c : PanOrbitCamera) (t : Transform) :
    (rotation_step tr w c t).2.1.translation = t.translation := by
  unfold rotation_step; split <;> rfl

theorem rotation_step_active (tr : Trig) (w : Vec2) (c : PanOrbitCamera) (t : Transform) :
    (rotation_step tr w c t).2.2 = decide (c.rotation_move.length_squared > 0.5) := by
  unfold rotation_step; split <;> simp_all

theorem rotation_step_inactive (tr : Trig) (w : Vec2) (c : PanOrbitCamera) (t : Transform)
    (h : ¬c.rotation_move.length_squared > 0.5) : rotation_step tr w c t = (c, t, false) := by
  unfold rotation_step; simp [h]

theorem pan_step_radius (w : Vec2) (p : Projection) (c : PanOrbitCamera) (t : Transform) :
    (pan_step w p c t).1.radius = c.radius := by
  unfold pan_step; split <;> rfl

theorem pan_step_rotation_move (w : Vec2) (p : Projection) (c : PanOrbitCamera) (t : Transform) :
    (pan_step w p c t).1.rotation_move = c.rotation_move := by
  unfold pan_step; split <;> rfl

theorem pan_step_scroll (w : Vec2) (p : Projection) (c : PanOrbitCamera) (t : Transform) :
    (pan_step w p c t).1.scroll = c.scroll := by
  unfold pan_step; split <;> rfl

theorem pan_step_upside_down (w : Vec2) (p : Projection) (c : PanOrbitCamera) (t : Transform) :
    (pan_step w p c t).1.upside_down = c.upside_down := by
  unfold pan_step; split <;> rfl

theorem pan_step_flag (w : Vec2) (p : Projection) (c : PanOrbitCamera) (t : Transform) :
    (pan_step w p c t).1.orbit_button_changed = c.orbit_button_changed := by
  unfold pan_step; split <;> rfl

theorem pan_step_pan (w : Vec2) (p : Projection) (c : PanOrbitCamera) (t : Transform) :
    (pan_step w p c t).1.pan =
      if c.pan.length_squared > 0.5 then c.pan - LERP • c.pan else c.pan := by
  unfold pan_step; split <;> simp [*]

theorem pan_step_active (w : Vec2) (p : Projection) (c : PanOrbitCamera) (t : Transform) :
    (pan_step w p c t).2 = decide (c.pan.length_squared > 0.5) := by
  unfold pan_step; split <;> simp_all

theorem pan_step_inactive (w : Vec2) (p : Projection) (c : PanOrbitCamera) (t : Transform)
    (h : ¬c.pan.length_squared > 0.5) : pan_step w p c t = (c, false) := by
  unfold pan_step; simp [h]

theorem zoom_step_focus (c : PanOrbitCamera) : (zoom_step c).1.focus = c.focus := by
  unfold zoom_step; split <;> rfl

theorem zoom_step_pan (c : PanOrbitCamera) : (zoom_step c).1.pan = c.pan := by
  unfold zoom_step; split <;> rfl

theorem zoom_step_rotation_move (c : PanOrbitCamera) :
    (zoom_step c).1.rotation_move = c.rotation_move := by
  unfold zoom_step; split <;> rfl

theorem zoom_step_upside_down (c : PanOrbitCamera) :
    (zoom_step c).1.upside_down = c.upside_down := by
  unfold zoom_step; split <;> rfl

theorem zoom_step_flag (c : PanOrbitCamera) :
    (zoom_step c).1.orbit_button_changed = c.orbit_button_changed := by
  unfold zoom_step; split <;> rfl

theorem zoom_step_scroll (c : PanOrbitCamera) :
    (zoom_step c).1.scroll =
      if |c.scroll| > 0.5 then c.scroll - c.scroll * LERP else c.scroll := by
  unfold zoom_step; split <;> simp [*]

theorem zoom_step_radius (c : PanOrbitCamera) :
    (zoom_step c).1.radius =
      if |c.scroll| > 0.5 then
        max (c.radius - c.scroll * LERP * c.radius * 0.05) 0.05
      else c.radius := by
  unfold zoom_step; split <;> simp [*, mul_assoc]

theorem zoom_step_active (c : PanOrbitCamera) :
    (zoom_step c).2 = decide (|c.scroll| > 0.5) := by
  unfold zoom_step; split <;> simp_all

theorem zoom_step_inactive (c : PanOrbitCamera) (h : ¬|c.scroll| > 0.5) :
    zoom_step c = (c, false) := by
  unfold zoom_step; simp [h]

theorem update_camera_system_camera (tr : Trig) (w : Vec2) (p : Projection)
    (c : PanOrbitCamera) (t : Transform) :
    (update_camera_system tr w p c t).1 =
      (zoom_step (pan_step w p (rotation_step tr w (orbit_flip_check c t) t).1
        (rotation_step tr w (orbit_flip_check c t) t).2.1).1).1 := rfl

theorem accumulate_radius (ms : MouseState) (motion : List Vec2) (wheel : List ℚ)
    (c : PanOrbitCamera) :
    (accumulate_mouse_events_system ms motion wheel c).radius = c.radius := rfl

theorem accumulate_focus (ms : MouseState) (motion : List Vec2) (wheel : List ℚ)
    (c : PanOrbitCamera) :
    (accumulate_mouse_events_system ms motion wheel c).focus = c.focus := rfl

/-! ### Claim theorems -/

/-- C2: after one Input Accumulator step the pending fields have increased by
exactly 2 × the summed raw deltas, motion routed to rotation when the orbit
button is held, else to pan when the pan button is held, never to both in one
frame; scroll-event vertical components are summed into the scroll bucket. -/
theorem C2_accumulator_routing (ms : MouseState) (motion : List Vec2) (wheel : List ℚ)
    (camera : PanOrbitCamera) :
    (accumulate_mouse_events_system ms motion wheel camera).rotation_move
      = camera.rotation_move +
        (2 : ℚ) • (if ms.orbit_pressed = true then motion.foldl (· + ·) 0 else 0) ∧
    (accumulate_mouse_events_system ms motion wheel camera).pan
      = camera.pan +
        (2 : ℚ) • (if ms.orbit_pressed = false ∧ ms.pan_pressed = true then
          motion.foldl (· + ·) 0 else 0) ∧
    (accumulate_mouse_events_system ms motion wheel camera).scroll
      = camera.scroll + 2 * wheel.foldl (· + ·) 0 ∧
    ((accumulate_mouse_events_system ms motion wheel camera).rotation_move
        = camera.rotation_move ∨
      (accumulate_mouse_events_system ms motion wheel camera).pan = camera.pan) := by
  unfold accumulate_mouse_events_system
  cases ho : ms.orbit_pressed <;> cases hp : ms.pan_pressed <;>
    refine ⟨by norm_num, by norm_num, by norm_num, ?_⟩ <;> simp

/-- C7: `upside_down` is untouched by the Accumulator, which ORs the
button-changed flag with the orbit button's transition; the Integrator
recomputes `upside_down` as (world-Y of local up ≤ 0) exactly when the flag
was set, leaves it unchanged otherwise, and always clears the flag. -/
theorem C7_upside_down_transitions (ms : MouseState) (motion : List Vec2) (wheel : List ℚ)
    (tr : Trig) (w : Vec2) (p : Projection) (camera : PanOrbitCamera)
    (transform : Transform) :
    (accumulate_mouse_events_system ms motion wheel camera).upside_down
      = camera.upside_down ∧
    (accumulate_mouse_events_system ms motion wheel camera).orbit_button_changed
      = (camera.orbit_button_changed || (ms.orbit_just_released || ms.orbit_just_pressed)) ∧
    (update_camera_system tr w p camera transform).1.upside_down
      = (if camera.orbit_button_changed
          then decide ((transform.rotation.mul_vec3 Vec3.Y).y ≤ 0)
          else camera.upside_down) ∧
    (update_camera_system tr w p camera transform).1.orbit_button_changed = false := by
  refine ⟨rfl, rfl, ?_, ?_⟩
  · rw [update_camera_system_camera, zoom_step_upside_down, pan_step_upside_down,
      rotation_step_upside_down, orbit_flip_check_upside_down]
    norm_num
  · rw [update_camera_system_camera, zoom_step_flag, pan_step_flag, rotation_step_flag,
      orbit_flip_check_flag]

/-- C10: when the button-changed flag is clear and all three pending
magnitudes are at or below threshold, one Integrator step is the identity on
the camera state and the transform. -/
theorem C10_subthreshold_identity (tr : Trig) (w : Vec2) (p : Projection)
    (camera : PanOrbitCamera) (transform : Transform)
    (hflag : camera.orbit_button_changed = false)
    (hr : camera.rotation_move.length_squared ≤ 0.5)
    (hp : camera.pan.length_squared ≤ 0.5)
    (hs : |camera.scroll| ≤ 0.5) :
    update_camera_system tr w p camera transform = (camera, transform) := by
  simp only [update_camera_system]
  rw [orbit_flip_check_id camera transform hflag]
  rw [rotation_step_inactive tr w camera transform (not_lt.mpr hr)]
  dsimp only
  rw [pan_step_inactive w p camera transform (not_lt.mpr hp)]
  dsimp only
  rw [zoom_step_inactive camera (not_lt.mpr hs)]
  simp

/-- C1: each pending accumulator above its activity gate is drained by
exactly the damped fraction: 0.1·p applied, 0.9·p stored. -/
theorem C1_fixed_ratio_damping (tr : Trig) (w : Vec2) (p : Projection)
    (camera : PanOrbitCamera) (transform : Transform) :
    (camera.rotation_move.length_squared > 0.5 →
      (update_camera_system tr w p camera transform).1.rotation_move
          = (0.9 : ℚ) • camera.rotation_move ∧
      camera.rotation_move - (update_camera_system tr w p camera transform).1.rotation_move
          = (0.1 : ℚ) • camera.rotation_move) ∧
    (camera.pan.length_squared > 0.5 →
      (update_camera_system tr w p camera transform).1.pan = (0.9 : ℚ) • camera.pan ∧
      camera.pan - (update_camera_system tr w p camera transform).1.pan
          = (0.1 : ℚ) • camera.pan) ∧
    (|camera.scroll| > 0.5 →
      (update_camera_system tr w p camera transform).1.scroll = 0.9 * camera.scroll ∧
      camera.scroll - (update_camera_system tr w p camera transform).1.scroll
          = 0.1 * camera.scroll) := by
  rw [update_camera_system_camera]
  refine ⟨fun h => ?_, fun h => ?_, fun h => ?_⟩
  · rw [zoom_step_rotation_move, pan_step_rotation_move, rotation_step_rotation_move,
      orbit_flip_check_rotation_move, if_pos h]
    cases camera.rotation_move with
    | mk a b => refine ⟨?_, ?_⟩ <;> simp [LERP] <;> constructor <;> ring_nf
  · rw [zoom_step_pan, pan_step_pan, rotation_step_pan, orbit_flip_check_pan, if_pos h]
    cases camera.pan with
    | mk a b => refine ⟨?_, ?_⟩ <;> simp [LERP] <;> constructor <;> ring_nf
  · rw [zoom_step_scroll, pan_step_scroll, rotation_step_scroll, orbit_flip_check_scroll,
      if_pos h]
    refine ⟨?_, ?_⟩ <;> simp [LERP] <;> ring_nf

/-- Shared witness fixtures: an identity transform, an 800×600 surface. -/
def tfW : Transform := ⟨⟨0, 0, 0⟩, ⟨0, 0, 0, 1⟩⟩

def winW : Vec2 := ⟨800, 600⟩

/-- Witness for C1 at a state where all three accumulators are above threshold. -/
def camC1 : PanOrbitCamera :=
  { PanOrbitCamera.default with pan := ⟨1, 1⟩, rotation_move := ⟨1, 1⟩, scroll := 1 }

theorem C1_witness :
    (update_camera_system trig0 winW Projection.orthographic camC1 tfW).1.rotation_move
        = (0.9 : ℚ) • camC1.rotation_move ∧
    (update_camera_system trig0 winW Projection.orthographic camC1 tfW).1.pan
        = (0.9 : ℚ) • camC1.pan ∧
    (update_camera_system trig0 winW Projection.orthographic camC1 tfW).1.scroll
        = 0.9 * camC1.scroll := by
  have h := C1_fixed_ratio_damping trig0 winW Projection.orthographic camC1 tfW
  refine ⟨(h.1 ?_).1, (h.2.1 ?_).1, (h.2.2 ?_).1⟩ <;>
    norm_num [camC1, PanOrbitCamera.default, Vec2.length_squared]

/-- One Integrator step keeps the radius at or above the 0.05 floor. -/
theorem update_camera_system_radius_floor (tr : Trig) (w : Vec2) (p : Projection)
    (c : PanOrbitCamera) (t : Transform) (h : 0.05 ≤ c.radius) :
    0.05 ≤ (update_camera_system tr w p c t).1.radius := by
  rw [update_camera_system_camera, zoom_step_radius, pan_step_radius, rotation_step_radius,
    orbit_flip_check_radius]
  split
  · exact le_max_right _ _
  · exact h

/-- C3: starting at or above the 0.05 floor, the radius stays at or above the
floor across any sequence of frames (arbitrary input, in particular arbitrarily
large positive scroll), and neither the flip check, nor the rotation step, nor
the pan step ever modifies the radius. -/
theorem C3_radius_floor (tr : Trig) (w : Vec2) (p : Projection) (fis : List FrameInput)
    (s : PanOrbitCamera × Transform) (h : 0.05 ≤ s.1.radius) :
    0.05 ≤ (run_frames tr w p fis s).1.radius ∧
    (rotation_step tr w s.1 s.2).1.radius = s.1.radius ∧
    (pan_step w p s.1 s.2).1.radius = s.1.radius ∧
    (orbit_flip_check s.1 s.2).radius = s.1.radius := by
  refine ⟨?_, rotation_step_radius tr w s.1 s.2, pan_step_radius w p s.1 s.2,
    orbit_flip_check_radius s.1 s.2⟩
  induction fis generalizing s with
  | nil => exact h
  | cons fi fis ih =>
      show 0.05 ≤ (run_frames tr w p fis (step_frame tr w p fi s)).1.radius
      apply ih
      apply update_camera_system_radius_floor
      rw [accumulate_radius]
      exact h

theorem C3_witness :
    0.05 ≤ (run_frames trig0 winW Projection.orthographic
        [⟨⟨false, false, false, false⟩, [], [1000000]⟩,
         ⟨⟨false, false, false, false⟩, [], [1000000]⟩]
        (PanOrbitCamera.default, tfW)).1.radius ∧
    (rotation_step trig0 winW PanOrbitCamera.default tfW).1.radius
        = PanOrbitCamera.default.radius ∧
    (pan_step winW Projection.orthographic PanOrbitCamera.default tfW).1.radius
        = PanOrbitCamera.default.radius ∧
    (orbit_flip_check PanOrbitCamera.default tfW).radius = PanOrbitCamera.default.radius :=
  C3_radius_floor trig0 winW Projection.orthographic
    [⟨⟨false, false, false, false⟩, [], [1000000]⟩,
     ⟨⟨false, false, false, false⟩, [], [1000000]⟩]
    (PanOrbitCamera.default, tfW) (by norm_num [PanOrbitCamera.default])

theorem C10_witness :
    update_camera_system trig0 winW Projection.orthographic PanOrbitCamera.default tfW
      = (PanOrbitCamera.default, tfW) :=
  C10_subthreshold_identity trig0 winW Projection.orthographic PanOrbitCamera.default tfW
    rfl (by norm_num [PanOrbitCamera.default, Vec2.length_squared])
    (by norm_num [PanOrbitCamera.default, Vec2.length_squared])
    (by norm_num [PanOrbitCamera.default])

/-- C4: when the rotation step is active, the applied delta becomes a
horizontal angle `applied.x / width × 2π` (sign-inverted when upside down) and
a vertical angle `applied.y / height × π`; the new orientation is the yaw
(world-vertical-axis) quaternion composed on the left of the old orientation,
then the pitch (local-horizontal-axis) quaternion composed on the right.
(The code passes the negated angles to the axis-angle constructors; that is
its sign convention for the direction of rotation about each axis.) -/
theorem C4_rotation_gimbal (tr : Trig) (window : Vec2) (camera : PanOrbitCamera)
    (transform : Transform) (h : camera.rotation_move.length_squared > 0.5) :
    (rotation_step tr window camera transform).2.1.rotation =
      (Quat.from_rotation_y tr
          (-((if camera.upside_down then -(1 : ℚ) else 1) *
              ((LERP • camera.rotation_move).x / window.x * (2 * tr.pi))))
        * transform.rotation)
      * Quat.from_rotation_x tr
          (-((LERP • camera.rotation_move).y / window.y * tr.pi)) := by
  unfold rotation_step
  rw [if_pos h]
  dsimp only
  congr 2
  cases camera.upside_down <;> simp <;> ring_nf

/-- C5: when the pan step is active, the damped pan is scaled componentwise by
`(fov·aspect, fov)/window` for a perspective projection and left unscaled
otherwise, and the focus moves by `(right·(−pan.x) + up·pan.y)·radius` along
the camera's local right and up axes. -/
theorem C5_pan_focus (window : Vec2) (projection : Projection) (camera : PanOrbitCamera)
    (transform : Transform) (h : camera.pan.length_squared > 0.5) :
    (pan_step window projection camera transform).1.focus =
      camera.focus + camera.radius •
        (((-(match projection with
              | Projection.perspective fov aspect_ratio =>
                  (LERP • camera.pan) * (Vec2.mk (fov * aspect_ratio) fov / window)
              | Projection.orthographic => LERP • camera.pan).x)
            • transform.rotation.mul_vec3 Vec3.X) +
          ((match projection with
            | Projection.perspective fov aspect_ratio =>
                (LERP • camera.pan) * (Vec2.mk (fov * aspect_ratio) fov / window)
            | Projection.orthographic => LERP • camera.pan).y
            • transform.rotation.mul_vec3 Vec3.Y)) := by
  unfold pan_step
  rw [if_pos h]

def camC4 : PanOrbitCamera := { PanOrbitCamera.default with rotation_move := ⟨80, 60⟩ }

theorem C4_witness :
    (rotation_step trig0 winW camC4 tfW).2.1.rotation =
      (Quat.from_rotation_y trig0
          (-((if camC4.upside_down then -(1 : ℚ) else 1) *
              ((LERP • camC4.rotation_move).x / winW.x * (2 * trig0.pi))))
        * tfW.rotation)
      * Quat.from_rotation_x trig0
          (-((LERP • camC4.rotation_move).y / winW.y * trig0.pi)) :=
  C4_rotation_gimbal trig0 winW camC4 tfW
    (by norm_num [camC4, PanOrbitCamera.default, Vec2.length_squared])

def camC5 : PanOrbitCamera := { PanOrbitCamera.default with pan := ⟨1, 1⟩ }

theorem C5_witness :
    (pan_step winW (Projection.perspective (3/4) (4/3)) camC5 tfW).1.focus =
      camC5.focus + camC5.radius •
        (((-(match Projection.perspective (3/4) (4/3) with
              | Projection.perspective fov aspect_ratio =>
                  (LERP • camC5.pan) * (Vec2.mk (fov * aspect_ratio) fov / winW)
              | Projection.orthographic => LERP • camC5.pan).x)
            • tfW.rotation.mul_vec3 Vec3.X) +
          ((match Projection.perspective (3/4) (4/3) with
            | Projection.perspective fov aspect_ratio =>
                (LERP • camC5.pan) * (Vec2.mk (fov * aspect_ratio) fov / winW)
            | Projection.orthographic => LERP • camC5.pan).y
            • tfW.rotation.mul_vec3 Vec3.Y)) :=
  C5_pan_focus winW (Projection.perspective (3/4) (4/3)) camC5 tfW
    (by norm_num [camC5, PanOrbitCamera.default, Vec2.length_squared])

theorem update_camera_system_transform (tr : Trig) (w : Vec2) (p : Projection)
    (c : PanOrbitCamera) (t : Transform) :
    (update_camera_system tr w p c t).2 =
      (if (rotation_step tr w (orbit_flip_check c t) t).2.2
          || (pan_step w p (rotation_step tr w (orbit_flip_check c t) t).1
                (rotation_step tr w (orbit_flip_check c t) t).2.1).2
          || (zoom_step (pan_step w p (rotation_step tr w (orbit_flip_check c t) t).1
                (rotation_step tr w (orbit_flip_check c t) t).2.1).1).2 then
        { (rotation_step tr w (orbit_flip_check c t) t).2.1 with
          translation :=
            (zoom_step (pan_step w p (rotation_step tr w (orbit_flip_check c t) t).1
                (rotation_step tr w (orbit_flip_check c t) t).2.1).1).1.focus +
              (Mat3.from_quat
                  (rotation_step tr w (orbit_flip_check c t) t).2.1.rotation).mul_vec3
                ⟨0.0, 0.0,
                  (zoom_step (pan_step w p (rotation_step tr w (orbit_flip_check c t) t).1
                    (rotation_step tr w (orbit_flip_check c t) t).2.1).1).1.radius⟩ }
      else (rotation_step tr w (orbit_flip_check c t) t).2.1) := rfl

/-- C6: if any of the three steps is active this frame the camera's world
position is recomputed as `focus + orientation-matrix · (0, 0, radius)` from
the updated state; if none is active the transform is left exactly unchanged. -/
theorem C6_transform_synthesis (tr : Trig) (w : Vec2) (p : Projection)
    (camera : PanOrbitCamera) (transform : Transform) :
    ((camera.rotation_move.length_squared > 0.5 ∨ camera.pan.length_squared > 0.5 ∨
        |camera.scroll| > 0.5) →
      (update_camera_system tr w p camera transform).2.translation =
        (update_camera_system tr w p camera transform).1.focus +
          (Mat3.from_quat
              (update_camera_system tr w p camera transform).2.rotation).mul_vec3
            ⟨0, 0, (update_camera_system tr w p camera transform).1.radius⟩) ∧
    ((¬camera.rotation_move.length_squared > 0.5 ∧ ¬camera.pan.length_squared > 0.5 ∧
        ¬|camera.scroll| > 0.5) →
      (update_camera_system tr w p camera transform).2 = transform) := by
  constructor
  · intro h
    have hany : ((rotation_step tr w (orbit_flip_check camera transform) transform).2.2
        || (pan_step w p (rotation_step tr w (orbit_flip_check camera transform) transform).1
              (rotation_step tr w (orbit_flip_check camera transform) transform).2.1).2
        || (zoom_step (pan_step w p
              (rotation_step tr w (orbit_flip_check camera transform) transform).1
              (rotation_step tr w (orbit_flip_check camera transform) transform).2.1).1).2)
        = true := by
      rw [rotation_step_active, pan_step_active, zoom_step_active,
        orbit_flip_check_rotation_move, rotation_step_pan, orbit_flip_check_pan,
        pan_step_scroll, rotation_step_scroll, orbit_flip_check_scroll]
      rcases h with h | h | h <;> simp [h]
    rw [update_camera_system_camera, update_camera_system_transform, hany]
    simp
    norm_num
  · rintro ⟨h1, h2, h3⟩
    rw [update_camera_system_transform,
      rotation_step_inactive tr w _ _ (by rwa [orbit_flip_check_rotation_move])]
    dsimp only
    rw [pan_step_inactive w p _ _ (by rwa [orbit_flip_check_pan]),
      zoom_step_inactive _ (by rwa [orbit_flip_check_scroll])]
    simp

def camC6 : PanOrbitCamera := { PanOrbitCamera.default with scroll := 1 }

theorem C6_witness :
    ((update_camera_system trig0 winW Projection.orthographic camC6 tfW).2.translation =
      (update_camera_system trig0 winW Projection.orthographic camC6 tfW).1.focus +
        (Mat3.from_quat
            (update_camera_system trig0 winW Projection.orthographic camC6 tfW).2.rotation).mul_vec3
          ⟨0, 0, (update_camera_system trig0 winW Projection.orthographic camC6 tfW).1.radius⟩) ∧
    (update_camera_system trig0 winW Projection.orthographic PanOrbitCamera.default tfW).2
      = tfW :=
  ⟨(C6_transform_synthesis trig0 winW Projection.orthographic camC6 tfW).1
      (Or.inr (Or.inr (by norm_num [camC6, PanOrbitCamera.default]))),
   (C6_transform_synthesis trig0 winW Projection.orthographic PanOrbitCamera.default tfW).2
      ⟨by norm_num [PanOrbitCamera.default, Vec2.length_squared],
       by norm_num [PanOrbitCamera.default, Vec2.length_squared],
       by norm_num [PanOrbitCamera.default]⟩⟩

def ms9 : MouseState := ⟨false, false, false, false⟩

/-- C9 counterexample: from the default state (radius 5, pending scroll 0), a
single raw scroll event of +1.0 makes the pending scroll 2.0, and the next
Integrator step leaves the radius at 4.95 = 5 − 0.2·5·0.05, which is NOT the
5 − 0.1·5·0.05 = 4.975 the claim asserts. -/
theorem C9_counterexample :
    (accumulate_mouse_events_system ms9 [] [1] PanOrbitCamera.default).scroll = 2 ∧
    (update_camera_system trig0 winW (Projection.perspective (3/4) (4/3))
        (accumulate_mouse_events_system ms9 [] [1] PanOrbitCamera.default) tfW).1.radius
      = 4.95 ∧
    (4.95 : ℚ) ≠
      PanOrbitCamera.default.radius - 0.1 * PanOrbitCamera.default.radius * 0.05 := by
  have hs : (accumulate_mouse_events_system ms9 [] [1] PanOrbitCamera.default).scroll = 2 := by
    simp [accumulate_mouse_events_system, ms9, PanOrbitCamera.default]
    norm_num
  refine ⟨hs, ?_, by norm_num [PanOrbitCamera.default]⟩
  rw [update_camera_system_camera, zoom_step_radius, pan_step_radius, rotation_step_radius,
    orbit_flip_check_radius, accumulate_radius, pan_step_scroll, rotation_step_scroll,
    orbit_flip_check_scroll, hs, if_pos (by norm_num)]
  rw [max_eq_left (by norm_num [LERP, PanOrbitCamera.default])]
  norm_num [LERP, PanOrbitCamera.default]

/-- C9 as amended: injecting a raw scroll delta of +1.0 for one frame on a
state with zero pending scroll yields pending scroll 2.0 after the
Accumulator, and the next Integrator step applies 0.2 of it, so (away from
the clamp) the radius decreases by exactly 0.2 × radius × 0.05. -/
theorem C9_amended_zoom (ms : MouseState) (motion : List Vec2) (tr : Trig) (w : Vec2)
    (p : Projection) (camera : PanOrbitCamera) (transform : Transform)
    (h0 : camera.scroll = 0)
    (h1 : 0.05 ≤ camera.radius - 0.2 * camera.radius * 0.05) :
    (accumulate_mouse_events_system ms motion [1] camera).scroll = 2 ∧
    (update_camera_system tr w p (accumulate_mouse_events_system ms motion [1] camera)
        transform).1.radius
      = camera.radius - 0.2 * camera.radius * 0.05 := by
  have hs : (accumulate_mouse_events_system ms motion [1] camera).scroll = 2 := by
    simp [accumulate_mouse_events_system, h0]
    norm_num
  refine ⟨hs, ?_⟩
  rw [update_camera_system_camera, zoom_step_radius, pan_step_radius, rotation_step_radius,
    orbit_flip_check_radius, accumulate_radius, pan_step_scroll, rotation_step_scroll,
    orbit_flip_check_scroll, hs, if_pos (by norm_num)]
  rw [max_eq_left (by simp only [LERP]; ring_nf; ring_nf at h1; linarith)]
  simp only [LERP]
  ring_nf

theorem C9_amended_witness :
    (accumulate_mouse_events_system ms9 [] [1] PanOrbitCamera.default).scroll = 2 ∧
    (update_camera_system trig0 winW (Projection.perspective (3/4) (4/3))
        (accumulate_mouse_events_system ms9 [] [1] PanOrbitCamera.default) tfW).1.radius
      = PanOrbitCamera.default.radius - 0.2 * PanOrbitCamera.default.radius * 0.05 :=
  C9_amended_zoom ms9 [] trig0 winW (Projection.perspective (3/4) (4/3))
    PanOrbitCamera.default tfW (by norm_num [PanOrbitCamera.default])
    (by norm_num [PanOrbitCamera.default])

end BevyDragging
